import Mathlib

/-!
# Verification of the murmura spaced-repetition review-queue engine

A shallow embedding of `src/lib/reviewQueue.ts` together with the Scheduler
and Classifier it imports from `src/lib/srs.ts`.  The file `srs.ts` itself is
not part of the source snapshot (only its import list in `reviewQueue.ts` is
visible), so the four imported functions (`isDueForReview`,
`getReviewPriority`, `calculateNextReview`, `getMasteryStatus`) are modelled
from the specification; every definition modelled that way carries a doc
comment starting with `Modelled from the spec:`.  All other definitions are
translated directly from `reviewQueue.ts`.

Conventions of the embedding:
* JavaScript numbers are modelled as `ℚ` (timestamps in milliseconds,
  priorities, ease factors, response times) except where the source only ever
  holds integers (`repetitions`, counters, list lengths: `ℕ`; quality
  ratings and batch sizes, which callers may pass as any integer: `ℤ`).
* `Date.now()` is threaded through as an explicit `now : ℚ` parameter; the
  random part of a generated session id is an explicit `String` parameter.
* JavaScript truthiness quirks of the source are kept: `reviewData?.nextReview
  || null` maps a zero timestamp to `none`, and `item.dueDate && p(item.dueDate)`
  is `false` for a `none` or zero `dueDate`.
* A thrown `Error` is an `Except.error` carrying the message string.
-/

namespace Murmura

/-- One day in milliseconds (`24 * 60 * 60 * 1000` in the source). -/
def dayMs : ℚ := 24 * 60 * 60 * 1000

/-- `ReviewData` from `srs.ts` (shape per spec §3 `SchedulingRecord`; the field
names `nextReview` and `quality` are also visible in `reviewQueue.ts`). -/
structure ReviewData where
  intervalDays : ℚ
  easeFactor : ℚ
  repetitions : ℕ
  quality : List ℤ
  lastReviewed : ℚ
  nextReview : ℚ
deriving DecidableEq

/-- The five module names of `ReviewModuleName`. -/
inductive ReviewModuleName where
  | vocabulary
  | kanji
  | grammar
  | reading
  | listening
deriving DecidableEq

/-- `ReviewItem` from `reviewQueue.ts`.  The optional display-only `data`
field (front/back/reading/audioUrl) is omitted: `getReviewQueue` and
`getModuleReviewQueue` never populate it and no queue logic reads it. -/
structure ReviewItem where
  id : String
  module : ReviewModuleName
  reviewData : Option ReviewData
  priority : ℚ
  dueDate : Option ℚ
  masteryStatus : String
deriving DecidableEq

/-- The per-module due counters of `ReviewQueue.byModule`. -/
structure ByModule where
  vocabulary : ℕ
  kanji : ℕ
  grammar : ℕ
  reading : ℕ
  listening : ℕ
deriving DecidableEq

/-- The urgency tiers `'overdue' | 'due' | 'upcoming' | 'none'`. -/
inductive Urgency where
  | overdue
  | due
  | upcoming
  | none
deriving DecidableEq

/-- `ReviewQueue` from `reviewQueue.ts`. -/
structure ReviewQueue where
  total : ℕ
  byModule : ByModule
  urgency : Urgency
  estimatedMinutes : ℕ
  items : List ReviewItem
deriving DecidableEq

/-- `UserModuleData`: learned item ids plus the review map.  The
`ModuleReviews` object is modelled as a lookup function (`reviews[itemId]`
is `some` exactly when the key is present). -/
structure UserModuleData where
  learned : List String
  reviews : String → Option ReviewData

/-- The `moduleData` argument of `getReviewQueue`: an optional
`UserModuleData` per module. -/
structure ModuleDataMap where
  vocabulary : Option UserModuleData
  kanji : Option UserModuleData
  grammar : Option UserModuleData
  reading : Option UserModuleData
  listening : Option UserModuleData

/-- Field lookup `moduleData[module]`. -/
def ModuleDataMap.get (md : ModuleDataMap) : ReviewModuleName → Option UserModuleData
  | .vocabulary => md.vocabulary
  | .kanji => md.kanji
  | .grammar => md.grammar
  | .reading => md.reading
  | .listening => md.listening

/-- `SRSSettings` (the fields the engine reads; UI-only fields such as
`autoplayAudio`, `showReadingHints`, `reminderTime` and `reviewThreshold`
are irrelevant to every function modelled here and are omitted). -/
structure SRSSettings where
  dailyNewItemsLimit : ℕ
  dailyReviewLimit : ℕ
  easeBonus : ℚ
  intervalMultiplier : ℚ
  lapseNewInterval : ℚ
  requiredAccuracy : ℚ
  reviewReminders : Bool
  reminderThreshold : ℕ
deriving DecidableEq

/-- `DEFAULT_SRS_SETTINGS` restricted to the modelled fields. -/
def DEFAULT_SRS_SETTINGS : SRSSettings :=
  { dailyNewItemsLimit := 20
    dailyReviewLimit := 100
    easeBonus := 0
    intervalMultiplier := 1
    lapseNewInterval := 1/2
    requiredAccuracy := 3/4
    reviewReminders := true
    reminderThreshold := 10 }

/-- `AVG_TIME_PER_ITEM = 8` seconds. -/
def AVG_TIME_PER_ITEM : ℕ := 8

/-! ## Classifier (modelled from the spec, `srs.ts` is absent) -/

/-- Modelled from the spec: `isDueForReview` from `src/lib/srs.ts` (file absent
from the snapshot).  Spec §4.2: an absent record is never due; otherwise due
iff `nextDueAt ≤ now`. -/
def isDueForReview (record : Option ReviewData) (now : ℚ) : Bool :=
  match record with
  | Option.none => false
  | Option.some r => if r.nextReview ≤ now then true else false

/-- Modelled from the spec: `getReviewPriority` from `src/lib/srs.ts` (file
absent from the snapshot).  Spec §4.2:
`priority = overdueDays * 2 + max(0, 5 - repetitions)` with
`overdueDays = max(0, (now - nextDueAt) in days)`; an absent record has
priority 0. -/
def getReviewPriority (record : Option ReviewData) (now : ℚ) : ℚ :=
  match record with
  | Option.none => 0
  | Option.some r =>
      max 0 ((now - r.nextReview) / dayMs) * 2 + max 0 (5 - (r.repetitions : ℚ))

/-- Modelled from the spec: `getMasteryStatus` from `src/lib/srs.ts` (file
absent from the snapshot).  Spec §4.2 mastery tiers, rendered as the strings
used in `reviewQueue.ts` (`getReviewCountByMastery` counts the keys
`new` / `learning` / `advanced` / `mastered`, so the `Review` tier is the
string `advanced`). -/
def getMasteryStatus (record : Option ReviewData) : String :=
  match record with
  | Option.none => "new"
  | Option.some r =>
      if r.repetitions = 0 then "new"
      else if r.repetitions ≤ 2 then "learning"
      else if r.repetitions ≤ 6 then "advanced"
      else if (r.quality.drop (r.quality.length - 3)).all (fun q => 3 ≤ q) then "mastered"
      else "advanced"

/-! ## Scheduler (modelled from the spec, `srs.ts` is absent) -/

/-- Modelled from the spec: `calculateNextReview` from `src/lib/srs.ts` (file
absent from the snapshot); spec §4.1 `advance`.  The source call site passes
only `(record, quality)`; the settings the real function reads internally are
made an explicit parameter, and `now` stands for `Date.now()`.
Constants: `0.1 = 1/10`, `0.08 = 2/25`, `0.02 = 1/50`, initial ease `2.5 = 5/2`,
ease floor `1.3 = 13/10`. -/
def calculateNextReview (record : Option ReviewData) (quality : ℤ) (now : ℚ)
    (settings : SRSSettings) : ReviewData :=
  match record with
  | Option.none =>
      if 3 ≤ quality then
        { intervalDays := 1, easeFactor := 5/2, repetitions := 1,
          quality := [quality], lastReviewed := now, nextReview := now + 1 * dayMs }
      else
        { intervalDays := 0, easeFactor := 5/2, repetitions := 0,
          quality := [quality], lastReviewed := now, nextReview := now + 0 * dayMs }
  | Option.some r =>
      if 3 ≤ quality then
        let q5 : ℚ := ((5 - quality : ℤ) : ℚ)
        let ease : ℚ :=
          max (13/10) (r.easeFactor + (1/10 - q5 * (2/25 + q5 * (1/50))) + settings.easeBonus)
        let reps : ℕ := r.repetitions + 1
        let rawInterval : ℚ :=
          if reps = 1 then 1 else if reps = 2 then 6 else r.intervalDays * ease
        let interval : ℚ := max 1 ((round (rawInterval * settings.intervalMultiplier) : ℤ) : ℚ)
        { intervalDays := interval, easeFactor := ease, repetitions := reps,
          quality := r.quality ++ [quality], lastReviewed := now,
          nextReview := now + interval * dayMs }
      else
        let interval : ℚ := max 1 ((round (r.intervalDays * settings.lapseNewInterval) : ℤ) : ℚ)
        { intervalDays := interval, easeFactor := r.easeFactor, repetitions := 0,
          quality := r.quality ++ [quality], lastReviewed := now,
          nextReview := now + interval * dayMs }

/-! ## Queue builder (`reviewQueue.ts`, translated from the source) -/

/-- `buildReviewItem` from `reviewQueue.ts`.  `dueDate` is
`reviewData?.nextReview || null`: `none` when the record is absent, and also
when `nextReview` is the (falsy) number 0. -/
def buildReviewItem (id : String) (module : ReviewModuleName)
    (reviewData : Option ReviewData) (now : ℚ) : ReviewItem :=
  { id := id
    module := module
    reviewData := reviewData
    priority := getReviewPriority reviewData now
    dueDate :=
      match reviewData with
      | Option.none => Option.none
      | Option.some r => if r.nextReview = 0 then Option.none else Option.some r.nextReview
    masteryStatus := getMasteryStatus reviewData }

/-- JS truthiness guard `item.dueDate && p(item.dueDate)`: false when
`dueDate` is `null` or the falsy number 0. -/
def dueDateSat (p : ℚ → Bool) (item : ReviewItem) : Bool :=
  match item.dueDate with
  | Option.none => false
  | Option.some d => if d = 0 then false else p d

/-- `calculateUrgency` from `reviewQueue.ts`. -/
def calculateUrgency (items : List ReviewItem) (now : ℚ) : Urgency :=
  if items.isEmpty then .none
  else if items.any (dueDateSat fun d => if d < now - dayMs then true else false) then .overdue
  else if items.any (dueDateSat fun d => if d ≤ now then true else false) then .due
  else if items.any (dueDateSat fun d => if d ≤ now + 3 * dayMs then true else false) then .upcoming
  else .none

/-- The per-module loop body of `getReviewQueue`: for each learned id of a
module whose data is present, look up `reviews[itemId] || null` and keep the
ids that are due, in order. -/
def collectDueItems (module : ReviewModuleName) (data : Option UserModuleData)
    (now : ℚ) : List ReviewItem :=
  match data with
  | Option.none => []
  | Option.some d =>
      d.learned.filterMap fun itemId =>
        if isDueForReview (d.reviews itemId) now then
          Option.some (buildReviewItem itemId module (d.reviews itemId) now)
        else Option.none

/-- The fixed iteration order `['vocabulary', 'kanji', 'grammar', 'reading',
'listening']` of `getReviewQueue`. -/
def moduleOrder : List ReviewModuleName :=
  [.vocabulary, .kanji, .grammar, .reading, .listening]

/-- All due items of all modules, concatenated in module order. -/
def collectAllDueItems (md : ModuleDataMap) (now : ℚ) : List ReviewItem :=
  (moduleOrder.map fun m => collectDueItems m (md.get m) now).flatten

/-- The `byModule` counters accumulated by `getReviewQueue`: one increment per
due item of each module, before sorting and truncation. -/
def byModuleCounts (md : ModuleDataMap) (now : ℚ) : ByModule :=
  { vocabulary := (collectDueItems .vocabulary md.vocabulary now).length
    kanji := (collectDueItems .kanji md.kanji now).length
    grammar := (collectDueItems .grammar md.grammar now).length
    reading := (collectDueItems .reading md.reading now).length
    listening := (collectDueItems .listening md.listening now).length }

/-- The comparator `(a, b) => b.priority - a.priority` of the source, as the
total preorder it sorts by: `a` may come before `b` iff `b.priority ≤ a.priority`. -/
def priorityGE (a b : ReviewItem) : Prop := b.priority ≤ a.priority

instance : DecidableRel priorityGE := fun a b =>
  inferInstanceAs (Decidable (b.priority ≤ a.priority))

instance : IsTotal ReviewItem priorityGE :=
  ⟨fun a b => le_total b.priority a.priority⟩

instance : IsTrans ReviewItem priorityGE :=
  ⟨fun _ _ _ h1 h2 => le_trans h2 h1⟩

/-- `items.sort((a, b) => b.priority - a.priority)`: a stable sort by
descending priority.  `Array.prototype.sort` is stable, and a stable sort is
determined by the comparator, so the stable `insertionSort` is a faithful
model. -/
def sortByPriorityDesc (items : List ReviewItem) : List ReviewItem :=
  List.insertionSort priorityGE items

/-- `limit > 0 ? items.slice(0, limit) : items` with
`limit = settings.dailyReviewLimit || 0`. -/
def applyDailyLimit (limit : ℕ) (items : List ReviewItem) : List ReviewItem :=
  if 0 < limit then items.take limit else items

/-- `Math.ceil((n * AVG_TIME_PER_ITEM) / 60)` on a natural count `n`. -/
def estimatedMinutesFor (n : ℕ) : ℕ :=
  (n * AVG_TIME_PER_ITEM + 59) / 60

/-- `getReviewQueue` from `reviewQueue.ts`. -/
def getReviewQueue (md : ModuleDataMap) (settings : SRSSettings) (now : ℚ) : ReviewQueue :=
  let limitedItems :=
    applyDailyLimit settings.dailyReviewLimit (sortByPriorityDesc (collectAllDueItems md now))
  { total := limitedItems.length
    byModule := byModuleCounts md now
    urgency := calculateUrgency limitedItems now
    estimatedMinutes := estimatedMinutesFor limitedItems.length
    items := limitedItems }

/-- Write one module's count into a `ByModule` record (`byModule[module] = n`). -/
def ByModule.set (b : ByModule) : ReviewModuleName → ℕ → ByModule
  | .vocabulary, n => { b with vocabulary := n }
  | .kanji, n => { b with kanji := n }
  | .grammar, n => { b with grammar := n }
  | .reading, n => { b with reading := n }
  | .listening, n => { b with listening := n }

/-- The all-zero `byModule` record. -/
def ByModule.zero : ByModule := ⟨0, 0, 0, 0, 0⟩

/-- `getModuleReviewQueue` from `reviewQueue.ts`. -/
def getModuleReviewQueue (module : ReviewModuleName) (moduleData : Option UserModuleData)
    (settings : SRSSettings) (now : ℚ) : ReviewQueue :=
  match moduleData with
  | Option.none =>
      { total := 0, byModule := ByModule.zero, urgency := .none,
        estimatedMinutes := 0, items := [] }
  | Option.some d =>
      let limitedItems :=
        applyDailyLimit settings.dailyReviewLimit
          (sortByPriorityDesc (collectDueItems module (Option.some d) now))
      { total := limitedItems.length
        byModule := ByModule.zero.set module limitedItems.length
        urgency := calculateUrgency limitedItems now
        estimatedMinutes := estimatedMinutesFor limitedItems.length
        items := limitedItems }

/-! ## Session controller (`reviewQueue.ts`, translated from the source) -/

/-- The `results` sub-record of `ReviewSessionState`. -/
structure SessionResults where
  correct : ℕ
  incorrect : ℕ
  totalTime : ℚ
deriving DecidableEq

/-- `ReviewSessionState` from `reviewQueue.ts`. -/
structure ReviewSessionState where
  sessionId : String
  items : List ReviewItem
  currentIndex : ℕ
  completed : List ReviewItem
  results : SessionResults
  startTime : ℚ
deriving DecidableEq

/-- JS `array.slice(0, endIdx)`: a negative end counts from the end of the
array (clamped at 0), a nonnegative end takes that many elements. -/
def jsSliceTo {α : Type} (l : List α) (endIdx : ℤ) : List α :=
  if endIdx < 0 then l.take (l.length - (-endIdx).toNat)
  else l.take endIdx.toNat

/-- `startReviewSession` from `reviewQueue.ts`.  The generated id
`session_${Date.now()}_${random}` is nondeterministic, so the id is an
explicit parameter; `now` stands for `Date.now()` (the `startTime`). -/
def startReviewSession (items : List ReviewItem) (batchSize : ℤ) (now : ℚ)
    (sessionId : String) : ReviewSessionState :=
  { sessionId := sessionId
    items := jsSliceTo items batchSize
    currentIndex := 0
    completed := []
    results := { correct := 0, incorrect := 0, totalTime := 0 }
    startTime := now }

/-- The successful return value of `submitReviewAnswer`. -/
structure SubmitResult where
  session : ReviewSessionState
  updatedReviewData : ReviewData
  isSessionComplete : Bool
deriving DecidableEq

/-- `submitReviewAnswer` from `reviewQueue.ts`.  `session.items[currentIndex]`
being `undefined` throws `Error('No current item in session')`; `now` and
`settings` are the implicit inputs of the Scheduler call. -/
def submitReviewAnswer (session : ReviewSessionState) (quality : ℤ)
    (responseTimeMs : ℚ) (now : ℚ) (settings : SRSSettings) :
    Except String SubmitResult :=
  match session.items[session.currentIndex]? with
  | Option.none => .error "No current item in session"
  | Option.some currentItem =>
      let updatedReviewData := calculateNextReview currentItem.reviewData quality now settings
      let isCorrect : Bool := if 3 ≤ quality then true else false
      let newSession : ReviewSessionState :=
        { session with
          currentIndex := session.currentIndex + 1
          completed :=
            session.completed ++ [{ currentItem with reviewData := Option.some updatedReviewData }]
          results :=
            { correct := session.results.correct + (if isCorrect then 1 else 0)
              incorrect := session.results.incorrect + (if isCorrect then 0 else 1)
              totalTime := session.results.totalTime + responseTimeMs } }
      let isSessionComplete : Bool :=
        if newSession.items.length ≤ newSession.currentIndex then true else false
      .ok { session := newSession, updatedReviewData := updatedReviewData,
            isSessionComplete := isSessionComplete }

/-- Iterate `submitReviewAnswer` over a list of `(quality, responseTimeMs)`
answers, propagating a thrown error.  Returns the final session together with
the `isSessionComplete` flag of the last call (for an empty answer list, the
flag the next call would report). -/
def submitRun (session : ReviewSessionState) (answers : List (ℤ × ℚ)) (now : ℚ)
    (settings : SRSSettings) : Except String (ReviewSessionState × Bool) :=
  match answers with
  | [] => .ok (session, if session.items.length ≤ session.currentIndex then true else false)
  | (q, t) :: rest =>
      match submitReviewAnswer session q t now settings with
      | .error e => .error e
      | .ok res => submitRun res.session rest now settings

/-- One per-module entry of the `moduleBreakdown` of `calculateSessionStats`. -/
structure ModuleCount where
  reviewed : ℕ
  correct : ℕ
deriving DecidableEq

/-- The `moduleBreakdown` record of `calculateSessionStats`. -/
structure ModuleBreakdown where
  vocabulary : ModuleCount
  kanji : ModuleCount
  grammar : ModuleCount
  reading : ModuleCount
  listening : ModuleCount
deriving DecidableEq

/-- The all-zero `moduleBreakdown`. -/
def ModuleBreakdown.zero : ModuleBreakdown :=
  ⟨⟨0, 0⟩, ⟨0, 0⟩, ⟨0, 0⟩, ⟨0, 0⟩, ⟨0, 0⟩⟩

/-- Apply an update to one module's entry of a `ModuleBreakdown`. -/
def ModuleBreakdown.update (mb : ModuleBreakdown) :
    ReviewModuleName → (ModuleCount → ModuleCount) → ModuleBreakdown
  | .vocabulary, f => { mb with vocabulary := f mb.vocabulary }
  | .kanji, f => { mb with kanji := f mb.kanji }
  | .grammar, f => { mb with grammar := f mb.grammar }
  | .reading, f => { mb with reading := f mb.reading }
  | .listening, f => { mb with listening := f mb.listening }

/-- The `forEach` body of `calculateSessionStats`: bump `reviewed`, and bump
`correct` when the last recorded quality of the item's review data is ≥ 3
(false when the record is absent or its quality history is empty). -/
def statsStep (mb : ModuleBreakdown) (item : ReviewItem) : ModuleBreakdown :=
  let wasCorrect : Bool :=
    match item.reviewData with
    | Option.none => false
    | Option.some rd =>
        match rd.quality.getLast? with
        | Option.none => false
        | Option.some q => if 3 ≤ q then true else false
  mb.update item.module fun c =>
    { reviewed := c.reviewed + 1, correct := c.correct + (if wasCorrect then 1 else 0) }

/-- The return value of `calculateSessionStats`. -/
structure SessionStats where
  accuracy : ℚ
  avgTimePerItem : ℚ
  totalItems : ℕ
  correct : ℕ
  incorrect : ℕ
  duration : ℚ
  moduleBreakdown : ModuleBreakdown
deriving DecidableEq

/-- `calculateSessionStats` from `reviewQueue.ts`; `now` stands for the
`Date.now()` read when computing `duration`. -/
def calculateSessionStats (session : ReviewSessionState) (now : ℚ) : SessionStats :=
  let totalItems := session.completed.length
  { accuracy := if 0 < totalItems then (session.results.correct : ℚ) / (totalItems : ℚ) else 0
    avgTimePerItem := if 0 < totalItems then session.results.totalTime / (totalItems : ℚ) else 0
    totalItems := totalItems
    correct := session.results.correct
    incorrect := session.results.incorrect
    duration := now - session.startTime
    moduleBreakdown := session.completed.foldl statsStep ModuleBreakdown.zero }

/-! ## Derived predicates used to state the claims -/

/-- The map that holds data `d` for category `m` only, every other category
absent (the input described by the single-category refinement claim). -/
def singletonModuleData (m : ReviewModuleName) (d : UserModuleData) : ModuleDataMap :=
  match m with
  | .vocabulary => ⟨Option.some d, Option.none, Option.none, Option.none, Option.none⟩
  | .kanji => ⟨Option.none, Option.some d, Option.none, Option.none, Option.none⟩
  | .grammar => ⟨Option.none, Option.none, Option.some d, Option.none, Option.none⟩
  | .reading => ⟨Option.none, Option.none, Option.none, Option.some d, Option.none⟩
  | .listening => ⟨Option.none, Option.none, Option.none, Option.none, Option.some d⟩

/-- The ordering property asserted by claim C1: descending priority, and any
two entries of equal priority in ascending order of their due timestamps. -/
def sortedWithTiesByDueDate (items : List ReviewItem) : Prop :=
  items.Pairwise fun x y =>
    y.priority ≤ x.priority ∧
    (x.priority = y.priority → ∀ dx ∈ x.dueDate, ∀ dy ∈ y.dueDate, dx ≤ dy)

/-- The final clause of claim C5: urgency `none` exactly for an empty queue. -/
def urgencyNoneIffEmpty (q : ReviewQueue) : Prop :=
  q.urgency = Urgency.none ↔ q.items = []

/-- Some entry of the list has a present, nonzero (non-falsy) due timestamp
satisfying `p`. -/
def hasDueWith (items : List ReviewItem) (p : ℚ → Prop) : Prop :=
  ∃ i ∈ items, ∃ d, i.dueDate = Option.some d ∧ d ≠ 0 ∧ p d

/-! ## Concrete inputs used by counterexamples and witnesses -/

/-- A record one day overdue at `now = 172800000` with a long streak
(`repetitions = 5`): priority `1 * 2 + max 0 (5 - 5) = 2`. -/
def rdA : ReviewData :=
  { intervalDays := 1, easeFactor := 5/2, repetitions := 5, quality := [4],
    lastReviewed := 0, nextReview := 86400000 }

/-- A record due exactly at `now = 172800000` with a short streak
(`repetitions = 3`): priority `0 * 2 + max 0 (5 - 3) = 2`. -/
def rdB : ReviewData :=
  { intervalDays := 1, easeFactor := 5/2, repetitions := 3, quality := [4],
    lastReviewed := 0, nextReview := 172800000 }

/-- A record whose `nextReview` is the falsy timestamp 0: due (0 ≤ now), but
its `dueDate` is `null` in every built item. -/
def rdZero : ReviewData :=
  { intervalDays := 1, easeFactor := 5/2, repetitions := 3, quality := [4],
    lastReviewed := 0, nextReview := 0 }

/-- Module data with the equal-priority items `"b"` (due now, earlier in
iteration order, later due date) and `"a"` (overdue, later in iteration
order, earlier due date). -/
def mapTie : ModuleDataMap :=
  { vocabulary := Option.some { learned := ["b"], reviews := fun _ => Option.some rdB }
    kanji := Option.some { learned := ["a"], reviews := fun _ => Option.some rdA }
    grammar := Option.none, reading := Option.none, listening := Option.none }

/-- Module data with one learned id listed twice (two identical due entries). -/
def mapDup : ModuleDataMap :=
  { vocabulary := Option.some { learned := ["w", "w"], reviews := fun _ => Option.some rdB }
    kanji := Option.none, grammar := Option.none, reading := Option.none,
    listening := Option.none }

/-- Module data with a single due item whose due timestamp is the falsy 0. -/
def mapZero : ModuleDataMap :=
  { vocabulary := Option.some { learned := ["z"], reviews := fun _ => Option.some rdZero }
    kanji := Option.none, grammar := Option.none, reading := Option.none,
    listening := Option.none }

/-- Module data for one category holding two due items. -/
def dataTwo : UserModuleData :=
  { learned := ["a", "b"], reviews := fun _ => Option.some rdB }

/-- Settings with no daily cap (`dailyReviewLimit = 0`, unlimited). -/
def settingsNoLimit : SRSSettings :=
  { DEFAULT_SRS_SETTINGS with dailyReviewLimit := 0 }

/-- Settings with a daily cap of one item. -/
def settingsLimitOne : SRSSettings :=
  { DEFAULT_SRS_SETTINGS with dailyReviewLimit := 1 }

/-- A concrete review item for session fixtures. -/
def sessionItem : ReviewItem :=
  buildReviewItem "w" .vocabulary (Option.some rdB) 172800000

/-- A fresh one-item session fixture. -/
def session1 : ReviewSessionState :=
  { sessionId := "s", items := [sessionItem], currentIndex := 0, completed := [],
    results := { correct := 0, incorrect := 0, totalTime := 0 }, startTime := 0 }

/-! ## Helper lemmas -/

/-- The truthiness guard holds iff the item has a present, nonzero due
timestamp satisfying the (decidable) predicate. -/
theorem dueDateSat_iff (p : ℚ → Prop) [DecidablePred p] (i : ReviewItem) :
    dueDateSat (fun d => if p d then true else false) i = true ↔
      ∃ d, i.dueDate = Option.some d ∧ d ≠ 0 ∧ p d := by
  cases hd : i.dueDate with
  | none => simp [dueDateSat, hd]
  | some d =>
      by_cases h0 : d = 0
      · simp [dueDateSat, hd, h0]
      · by_cases hp : p d
        · simp [dueDateSat, hd, h0, hp]
        · simp [dueDateSat, hd, h0, hp]

/-- An `items.some(...)` urgency check holds iff some entry has a present,
nonzero due timestamp satisfying the predicate. -/
theorem anyDue_iff (items : List ReviewItem) (p : ℚ → Prop) [DecidablePred p] :
    items.any (dueDateSat fun d => if p d then true else false) = true ↔
      hasDueWith items p := by
  simp only [List.any_eq_true, hasDueWith, dueDateSat_iff]

/-- Exact characterization of `calculateUrgency`: the first window (among
overdue by more than a day / due now / due within three days) containing a
present, nonzero due timestamp decides the tier, `none` when no window does. -/
theorem calculateUrgency_spec (L : List ReviewItem) (now : ℚ) :
    (calculateUrgency L now = .overdue ↔ hasDueWith L (fun d => d < now - dayMs)) ∧
    (calculateUrgency L now = .due ↔
      ¬ hasDueWith L (fun d => d < now - dayMs) ∧ hasDueWith L (fun d => d ≤ now)) ∧
    (calculateUrgency L now = .upcoming ↔
      ¬ hasDueWith L (fun d => d < now - dayMs) ∧ ¬ hasDueWith L (fun d => d ≤ now) ∧
      hasDueWith L (fun d => d ≤ now + 3 * dayMs)) ∧
    (calculateUrgency L now = .none ↔
      ¬ hasDueWith L (fun d => d < now - dayMs) ∧ ¬ hasDueWith L (fun d => d ≤ now) ∧
      ¬ hasDueWith L (fun d => d ≤ now + 3 * dayMs)) := by
  by_cases he : L = []
  · subst he
    simp [calculateUrgency, hasDueWith]
  · rw [calculateUrgency, if_neg (by simpa using he)]
    by_cases h1 : L.any (dueDateSat fun d => if d < now - dayMs then true else false) = true
    · have o1 := (anyDue_iff L (fun d => d < now - dayMs)).mp h1
      rw [if_pos h1]
      simp [o1]
    · have n1 : ¬ hasDueWith L (fun d => d < now - dayMs) :=
        fun c => h1 ((anyDue_iff L _).mpr c)
      rw [if_neg h1]
      by_cases h2 : L.any (dueDateSat fun d => if d ≤ now then true else false) = true
      · have o2 := (anyDue_iff L (fun d => d ≤ now)).mp h2
        rw [if_pos h2]
        simp [n1, o2]
      · have n2 : ¬ hasDueWith L (fun d => d ≤ now) :=
          fun c => h2 ((anyDue_iff L _).mpr c)
        rw [if_neg h2]
        by_cases h3 : L.any (dueDateSat fun d => if d ≤ now + 3 * dayMs then true else false) = true
        · have o3 := (anyDue_iff L (fun d => d ≤ now + 3 * dayMs)).mp h3
          rw [if_pos h3]
          simp [n1, n2, o3]
        · have n3 : ¬ hasDueWith L (fun d => d ≤ now + 3 * dayMs) :=
            fun c => h3 ((anyDue_iff L _).mpr c)
          rw [if_neg h3]
          simp [n1, n2, n3]

/-- A successful submit keeps the item list, advances the index and extends
the completed list by one. -/
theorem submit_ok_step (s : ReviewSessionState) (q : ℤ) (t now : ℚ) (st : SRSSettings)
    (h : s.currentIndex < s.items.length) :
    ∃ res, submitReviewAnswer s q t now st = .ok res ∧
      res.session.items = s.items ∧
      res.session.currentIndex = s.currentIndex + 1 ∧
      res.session.completed.length = s.completed.length + 1 := by
  simp only [submitReviewAnswer, List.getElem?_eq_getElem h]
  exact ⟨_, rfl, rfl, rfl, by simp⟩

/-- Running exactly the remaining number of answers completes the session and
extends the completed list by that number. -/
theorem submitRun_complete (now : ℚ) (st : SRSSettings) :
    ∀ (answers : List (ℤ × ℚ)) (s : ReviewSessionState),
      s.currentIndex + answers.length = s.items.length →
      ∃ s2, submitRun s answers now st = .ok (s2, true) ∧
        s2.completed.length = s.completed.length + answers.length := by
  intro answers
  induction answers with
  | nil =>
      intro s h
      simp only [List.length_nil, Nat.add_zero] at h
      refine ⟨s, ?_, by simp⟩
      simp only [submitRun]
      rw [if_pos (by omega)]
  | cons a rest ih =>
      intro s h
      obtain ⟨q, t⟩ := a
      have hlt : s.currentIndex < s.items.length := by
        simp only [List.length_cons] at h
        omega
      obtain ⟨res, hok, hitems, hidx, hcomp⟩ := submit_ok_step s q t now st hlt
      simp only [submitRun, hok]
      obtain ⟨s2, h2, hlen2⟩ := ih res.session (by
        rw [hidx, hitems]
        simp only [List.length_cons] at h
        omega)
      refine ⟨s2, h2, ?_⟩
      rw [hlen2, hcomp]
      simp only [List.length_cons]
      omega

/-- A module with absent data contributes no due items. -/
theorem collectDueItems_none (m : ReviewModuleName) (now : ℚ) :
    collectDueItems m Option.none now = [] := rfl

/-- Collecting over a single-category map yields exactly that category's due
items. -/
theorem collectAll_singleton (m : ReviewModuleName) (d : UserModuleData) (now : ℚ) :
    collectAllDueItems (singletonModuleData m d) now =
      collectDueItems m (Option.some d) now := by
  cases m <;>
    simp [collectAllDueItems, moduleOrder, singletonModuleData, ModuleDataMap.get,
      collectDueItems]

/-! ## Claim C1: queue ordering -/

/-- Counterexample to C1 as stated: with the no-cap settings, the queue built
from `mapTie` holds two entries of equal priority 2 whose due timestamps are
in descending (not ascending) order, because the source sorts only by
priority and stability preserves insertion order. -/
theorem c1_counterexample :
    ¬ sortedWithTiesByDueDate (getReviewQueue mapTie settingsNoLimit 172800000).items := by
  have e : (getReviewQueue mapTie settingsNoLimit 172800000).items =
      [buildReviewItem "b" .vocabulary (Option.some rdB) 172800000,
       buildReviewItem "a" .kanji (Option.some rdA) 172800000] := by
    norm_num [getReviewQueue, collectAllDueItems, moduleOrder, ModuleDataMap.get,
      collectDueItems, isDueForReview, mapTie, rdA, rdB, sortByPriorityDesc,
      List.insertionSort, List.orderedInsert, priorityGE, buildReviewItem,
      getReviewPriority, applyDailyLimit, settingsNoLimit, DEFAULT_SRS_SETTINGS, dayMs,
      max_def]
  rw [sortedWithTiesByDueDate, e]
  intro h
  obtain ⟨h1, -⟩ := List.pairwise_cons.mp h
  have h2 := h1 _ (List.mem_singleton.mpr rfl)
  have h3 := h2.2 (by
      norm_num [buildReviewItem, getReviewPriority, rdA, rdB, dayMs, max_def])
    172800000 (by norm_num [buildReviewItem, rdB])
    86400000 (by norm_num [buildReviewItem, rdA])
  norm_num at h3

/-- Claim C1 (amended): the queue's items are sorted in descending order of
priority; entries of equal priority keep their original collection order
(module iteration order, then learned-list order — the sort is stable), not
necessarily ascending due-date order. -/
theorem c1_sorted_desc_stable (md : ModuleDataMap) (s : SRSSettings) (now : ℚ) :
    (getReviewQueue md s now).items.Pairwise priorityGE ∧
    ∀ a b : ReviewItem, priorityGE a b →
      [a, b].Sublist (collectAllDueItems md now) →
      [a, b].Sublist (sortByPriorityDesc (collectAllDueItems md now)) := by
  constructor
  · have hs : (sortByPriorityDesc (collectAllDueItems md now)).Pairwise priorityGE :=
      List.sorted_insertionSort priorityGE _
    simp only [getReviewQueue, applyDailyLimit]
    split
    · exact hs.sublist (List.take_sublist _ _)
    · exact hs
  · intro a b hab hsub
    exact List.pair_sublist_insertionSort hab hsub

/-- Witness for C1: the duplicated-entry map keeps its two equal entries
adjacent through the sort. -/
theorem c1_witness :
    [buildReviewItem "w" .vocabulary (Option.some rdB) 172800000,
     buildReviewItem "w" .vocabulary (Option.some rdB) 172800000].Sublist
      (sortByPriorityDesc (collectAllDueItems mapDup 172800000)) :=
  (c1_sorted_desc_stable mapDup settingsNoLimit 172800000).2 _ _ (le_refl _)
    (by rw [show collectAllDueItems mapDup 172800000 =
        [buildReviewItem "w" .vocabulary (Option.some rdB) 172800000,
         buildReviewItem "w" .vocabulary (Option.some rdB) 172800000] from rfl])

/-! ## Claim C2: daily cap enforcement -/

/-- Claim C2: if `dailyReviewLimit` is nonzero the queue holds at most that
many items; if it is zero the queue holds every due entry (a permutation of
the concatenated due entries, no truncation). -/
theorem c2_daily_cap (md : ModuleDataMap) (s : SRSSettings) (now : ℚ) :
    (s.dailyReviewLimit ≠ 0 → (getReviewQueue md s now).items.length ≤ s.dailyReviewLimit) ∧
    (s.dailyReviewLimit = 0 →
      (getReviewQueue md s now).items.Perm (collectAllDueItems md now)) := by
  constructor
  · intro h
    simp only [getReviewQueue, applyDailyLimit]
    rw [if_pos (Nat.pos_of_ne_zero h)]
    exact List.length_take_le _ _
  · intro h
    simp only [getReviewQueue, applyDailyLimit, h]
    rw [if_neg (by simp)]
    exact List.perm_insertionSort _ _

/-- Witness for C2: the default cap (100) bounds the tie queue, and with the
cap set to zero the queue is a permutation of all due entries. -/
theorem c2_witness :
    (getReviewQueue mapTie DEFAULT_SRS_SETTINGS 172800000).items.length ≤
        DEFAULT_SRS_SETTINGS.dailyReviewLimit ∧
    (getReviewQueue mapTie settingsNoLimit 172800000).items.Perm
        (collectAllDueItems mapTie 172800000) :=
  ⟨(c2_daily_cap mapTie DEFAULT_SRS_SETTINGS 172800000).1 (by decide),
   (c2_daily_cap mapTie settingsNoLimit 172800000).2 rfl⟩

/-! ## Claim C3: session completeness -/

/-- Claim C3: a session started from a batch of `n` entries is complete after
exactly `n` submits (one per entry, any qualities and response times), the
last submit reporting `isSessionComplete = true`, and `calculateSessionStats`
then reports `totalItems = n`. -/
theorem c3_session_completeness (items : List ReviewItem) (bs : ℤ) (now0 now1 now2 : ℚ)
    (sid : String) (st : SRSSettings) (answers : List (ℤ × ℚ))
    (h : answers.length = (startReviewSession items bs now0 sid).items.length) :
    ∃ s2, submitRun (startReviewSession items bs now0 sid) answers now1 st = .ok (s2, true) ∧
      (calculateSessionStats s2 now2).totalItems = answers.length := by
  obtain ⟨s2, hok, hlen⟩ :=
    submitRun_complete now1 st answers (startReviewSession items bs now0 sid)
      (by simpa [startReviewSession] using h)
  refine ⟨s2, hok, ?_⟩
  simp [calculateSessionStats, hlen, startReviewSession]

/-- Witness for C3: a one-entry batch is complete after one submit with
`totalItems = 1`. -/
theorem c3_witness :
    ∃ s2, submitRun (startReviewSession [sessionItem] 1 0 "s") [(4, 1000)] 0
        DEFAULT_SRS_SETTINGS = .ok (s2, true) ∧
      (calculateSessionStats s2 0).totalItems = 1 :=
  c3_session_completeness [sessionItem] 1 0 0 0 "s" DEFAULT_SRS_SETTINGS [(4, 1000)] rfl

/-! ## Claim C4: the submit transition -/

/-- Claim C4: on an in-progress session, `submitReviewAnswer` appends the
current entry with its advanced record to `completed`, bumps `correct`
exactly when `quality ≥ 3` and `incorrect` exactly when `quality < 3`, adds
`responseTimeMs` to `totalTime`, and advances `currentIndex` by one. -/
theorem c4_submit_updates (s : ReviewSessionState) (q : ℤ) (t now : ℚ)
    (st : SRSSettings) (h : s.currentIndex < s.items.length) :
    ∃ res, submitReviewAnswer s q t now st = .ok res ∧
      res.session.completed =
        s.completed ++ [{ s.items[s.currentIndex] with
          reviewData :=
            Option.some (calculateNextReview (s.items[s.currentIndex]).reviewData q now st) }] ∧
      res.session.results.correct = s.results.correct + (if 3 ≤ q then 1 else 0) ∧
      res.session.results.incorrect = s.results.incorrect + (if 3 ≤ q then 0 else 1) ∧
      res.session.results.totalTime = s.results.totalTime + t ∧
      res.session.currentIndex = s.currentIndex + 1 := by
  simp only [submitReviewAnswer, List.getElem?_eq_getElem h]
  refine ⟨_, rfl, by simp, ?_, ?_, by simp, by simp⟩
  · simp only []
    split <;> simp
  · simp only []
    split <;> simp

/-- Witness for C4: the one-item fixture session accepts a quality-4 answer. -/
theorem c4_witness :
    ∃ res, submitReviewAnswer session1 4 1000 0 DEFAULT_SRS_SETTINGS = .ok res ∧
      res.session.completed =
        session1.completed ++ [{ session1.items[0] with
          reviewData :=
            Option.some (calculateNextReview (session1.items[0]).reviewData 4 0
              DEFAULT_SRS_SETTINGS) }] ∧
      res.session.results.correct = session1.results.correct + (if (3:ℤ) ≤ 4 then 1 else 0) ∧
      res.session.results.incorrect = session1.results.incorrect + (if (3:ℤ) ≤ 4 then 0 else 1) ∧
      res.session.results.totalTime = session1.results.totalTime + 1000 ∧
      res.session.currentIndex = session1.currentIndex + 1 :=
  c4_submit_updates session1 4 1000 0 DEFAULT_SRS_SETTINGS (by decide)

/-! ## Claim C5: urgency classification -/

/-- Counterexample to C5 as stated: a nonempty queue (one due item whose
`nextReview` is the falsy timestamp 0, so its `dueDate` is `null`) is
classified `none`, refuting "None occurs exactly when the entry set is
empty". -/
theorem c5_counterexample :
    ¬ urgencyNoneIffEmpty (getReviewQueue mapZero settingsNoLimit 86400000) := by
  intro h
  have hu : (getReviewQueue mapZero settingsNoLimit 86400000).urgency = Urgency.none := by
    norm_num [getReviewQueue, collectAllDueItems, moduleOrder, ModuleDataMap.get,
      collectDueItems, isDueForReview, mapZero, rdZero, sortByPriorityDesc,
      List.insertionSort, List.orderedInsert, priorityGE, buildReviewItem,
      getReviewPriority, applyDailyLimit, settingsNoLimit, DEFAULT_SRS_SETTINGS, dayMs,
      max_def, calculateUrgency, dueDateSat]
  have hi := h.mp hu
  rw [show (getReviewQueue mapZero settingsNoLimit 86400000).items =
      [buildReviewItem "z" .vocabulary (Option.some rdZero) 86400000] by
    norm_num [getReviewQueue, collectAllDueItems, moduleOrder, ModuleDataMap.get,
      collectDueItems, isDueForReview, mapZero, rdZero, sortByPriorityDesc,
      List.insertionSort, List.orderedInsert, priorityGE, buildReviewItem,
      getReviewPriority, applyDailyLimit, settingsNoLimit, DEFAULT_SRS_SETTINGS, dayMs,
      max_def]] at hi
  simp at hi

/-- Claim C5 (amended): over the post-truncation entry set, with "due
timestamp" meaning a present, nonzero (non-falsy) `dueDate`: `overdue` iff
some due timestamp is more than 24h before now; else `due` iff some due
timestamp is at most now; else `upcoming` iff some due timestamp is at most
72h after now; and `none` iff no entry has a due timestamp in any of these
windows — which holds when the entry set is empty, but also for nonempty
sets whose entries all lack a nonzero due timestamp. -/
theorem c5_urgency_characterization (md : ModuleDataMap) (s : SRSSettings) (now : ℚ) :
    ((getReviewQueue md s now).urgency = .overdue ↔
      hasDueWith (getReviewQueue md s now).items (fun d => d < now - dayMs)) ∧
    ((getReviewQueue md s now).urgency = .due ↔
      ¬ hasDueWith (getReviewQueue md s now).items (fun d => d < now - dayMs) ∧
      hasDueWith (getReviewQueue md s now).items (fun d => d ≤ now)) ∧
    ((getReviewQueue md s now).urgency = .upcoming ↔
      ¬ hasDueWith (getReviewQueue md s now).items (fun d => d < now - dayMs) ∧
      ¬ hasDueWith (getReviewQueue md s now).items (fun d => d ≤ now) ∧
      hasDueWith (getReviewQueue md s now).items (fun d => d ≤ now + 3 * dayMs)) ∧
    ((getReviewQueue md s now).urgency = .none ↔
      ¬ hasDueWith (getReviewQueue md s now).items (fun d => d < now - dayMs) ∧
      ¬ hasDueWith (getReviewQueue md s now).items (fun d => d ≤ now) ∧
      ¬ hasDueWith (getReviewQueue md s now).items (fun d => d ≤ now + 3 * dayMs)) := by
  have hq : (getReviewQueue md s now).urgency =
      calculateUrgency (getReviewQueue md s now).items now := rfl
  rw [hq]
  exact calculateUrgency_spec _ now

/-! ## Claim C6: stats idempotence -/

/-- Counterexample to C6 as stated: two `stats` calls on the same session
value differ when the clock has advanced, because `duration` is recomputed
from `Date.now()` on every call. -/
theorem c6_counterexample :
    calculateSessionStats session1 0 ≠ calculateSessionStats session1 1 := by
  intro h
  have hd := congrArg SessionStats.duration h
  norm_num [calculateSessionStats, session1] at hd

/-- Claim C6 (amended): `calculateSessionStats` is a pure function of the
session and the clock reading; two calls agree on every field except
`duration`, which is always the call-time clock minus `startTime` (so two
calls at the same clock value agree on everything). -/
theorem c6_stats_pure (s : ReviewSessionState) (t1 t2 : ℚ) :
    calculateSessionStats s t1 =
      { calculateSessionStats s t2 with duration := t1 - s.startTime } := rfl

/-! ## Claim C7: fail-fast preconditions -/

/-- Counterexample to C7 as stated: `startReviewSession` with batch size 0
does not fail — it returns a normal session whose `items` slice is empty. -/
theorem c7_counterexample :
    startReviewSession [sessionItem] 0 0 "s" =
      { sessionId := "s", items := [], currentIndex := 0, completed := [],
        results := { correct := 0, incorrect := 0, totalTime := 0 },
        startTime := 0 } := rfl

/-- Claim C7 (amended): `submitReviewAnswer` on a completed session (no
current entry) throws; `startReviewSession` with batch size 0 does not
throw — it silently returns a session with an empty items list. -/
theorem c7_fail_fast :
    (∀ (s : ReviewSessionState) (q : ℤ) (t now : ℚ) (st : SRSSettings),
        s.items.length ≤ s.currentIndex →
        submitReviewAnswer s q t now st = .error "No current item in session") ∧
    (∀ (items : List ReviewItem) (now : ℚ) (sid : String),
        (startReviewSession items 0 now sid).items = [] ∧
        (startReviewSession items 0 now sid).currentIndex = 0) := by
  constructor
  · intro s q t now st h
    unfold submitReviewAnswer
    rw [List.getElem?_eq_none h]
  · intro items now sid
    exact ⟨by simp [startReviewSession, jsSliceTo], rfl⟩

/-- Witness for C7: submitting to an exhausted session throws, and a batch
size of 0 yields an empty session. -/
theorem c7_witness :
    submitReviewAnswer { session1 with currentIndex := 1 } 4 1000 0 DEFAULT_SRS_SETTINGS =
        .error "No current item in session" ∧
    (startReviewSession [sessionItem] 0 0 "s").items = [] :=
  ⟨c7_fail_fast.1 { session1 with currentIndex := 1 } 4 1000 0 DEFAULT_SRS_SETTINGS (by decide),
   (c7_fail_fast.2 [sessionItem] 0 "s").1⟩

/-! ## Claim C8: ease-factor floor -/

/-- Claim C8: for any record satisfying the data-model invariant
`easeFactor ≥ 1.3` (§3) — or no record at all — and any quality, the record
returned by the Scheduler's `advance` keeps `easeFactor ≥ 1.3`. -/
theorem c8_ease_floor (record : Option ReviewData) (q : ℤ) (now : ℚ)
    (st : SRSSettings) (h : ∀ r ∈ record, (13:ℚ)/10 ≤ r.easeFactor) :
    (13:ℚ)/10 ≤ (calculateNextReview record q now st).easeFactor := by
  cases record with
  | none =>
      simp only [calculateNextReview]
      split <;> norm_num
  | some r =>
      simp only [calculateNextReview]
      split
      · exact le_max_left _ _
      · exact h r rfl

/-- Witness for C8: a first exposure at quality 4 yields ease `2.5 ≥ 1.3`. -/
theorem c8_witness :
    (13:ℚ)/10 ≤ (calculateNextReview Option.none 4 0 DEFAULT_SRS_SETTINGS).easeFactor :=
  c8_ease_floor Option.none 4 0 DEFAULT_SRS_SETTINGS (by simp)

/-! ## Claim C9: the single-category variant -/

/-- Counterexample to C9 as stated: with two due items and a cap of one, the
single-category queue reports the post-truncation count (1) in
`byModule.vocabulary` while the full builder reports the pre-truncation due
count (2), so the two queues differ. -/
theorem c9_counterexample :
    getModuleReviewQueue .vocabulary (Option.some dataTwo) settingsLimitOne 172800000 ≠
      getReviewQueue (singletonModuleData .vocabulary dataTwo) settingsLimitOne 172800000 := by
  intro h
  have hb := congrArg (fun q => q.byModule.vocabulary) h
  norm_num [getModuleReviewQueue, getReviewQueue, byModuleCounts, ByModule.set,
    ByModule.zero, singletonModuleData, ModuleDataMap.get, collectDueItems, dataTwo,
    rdB, isDueForReview, applyDailyLimit, sortByPriorityDesc, List.insertionSort,
    List.orderedInsert, priorityGE, buildReviewItem, getReviewPriority,
    settingsLimitOne, DEFAULT_SRS_SETTINGS, dayMs, max_def, collectAllDueItems,
    moduleOrder, List.filterMap_cons, List.filterMap_nil] at hb

/-- Claim C9 (amended): `getModuleReviewQueue m d s` agrees with
`getReviewQueue` on the single-category map in `items`, `total`, `urgency`
and `estimatedMinutes`; the per-category counts agree only when no truncation
occurs (in particular whenever `dailyReviewLimit = 0`, the queues are fully
equal), because the single-category variant reports the post-truncation count
while the full builder reports the pre-truncation due count. -/
theorem c9_single_category_agreement (m : ReviewModuleName) (d : UserModuleData)
    (s : SRSSettings) (now : ℚ) :
    ((getModuleReviewQueue m (Option.some d) s now).items =
      (getReviewQueue (singletonModuleData m d) s now).items) ∧
    ((getModuleReviewQueue m (Option.some d) s now).total =
      (getReviewQueue (singletonModuleData m d) s now).total) ∧
    ((getModuleReviewQueue m (Option.some d) s now).urgency =
      (getReviewQueue (singletonModuleData m d) s now).urgency) ∧
    ((getModuleReviewQueue m (Option.some d) s now).estimatedMinutes =
      (getReviewQueue (singletonModuleData m d) s now).estimatedMinutes) ∧
    (s.dailyReviewLimit = 0 →
      getModuleReviewQueue m (Option.some d) s now =
        getReviewQueue (singletonModuleData m d) s now) := by
  have hc := collectAll_singleton m d now
  refine ⟨?_, ?_, ?_, ?_, ?_⟩
  · simp only [getModuleReviewQueue, getReviewQueue, hc]
  · simp only [getModuleReviewQueue, getReviewQueue, hc]
  · simp only [getModuleReviewQueue, getReviewQueue, hc]
  · simp only [getModuleReviewQueue, getReviewQueue, hc]
  · intro h0
    simp only [getModuleReviewQueue, getReviewQueue, hc, h0, applyDailyLimit]
    rw [if_neg (by simp)]
    have hl : (sortByPriorityDesc (collectDueItems m (Option.some d) now)).length =
        (collectDueItems m (Option.some d) now).length := by
      simp [sortByPriorityDesc, List.length_insertionSort]
    have hbm : ByModule.zero.set m
        (sortByPriorityDesc (collectDueItems m (Option.some d) now)).length =
        byModuleCounts (singletonModuleData m d) now := by
      cases m <;>
        simp [ByModule.set, ByModule.zero, byModuleCounts, singletonModuleData,
          ModuleDataMap.get, collectDueItems_none, hl]
    rw [hbm]

/-- Witness for C9: with the no-cap settings the two builders return equal
queues on the two-item category data. -/
theorem c9_witness :
    getModuleReviewQueue .vocabulary (Option.some dataTwo) settingsNoLimit 172800000 =
      getReviewQueue (singletonModuleData .vocabulary dataTwo) settingsNoLimit 172800000 :=
  (c9_single_category_agreement .vocabulary dataTwo settingsNoLimit 172800000).2.2.2.2 rfl

/-! ## Claim C10: the submit frame -/

/-- Claim C10: `submitReviewAnswer` preserves `sessionId`, `items` and
`startTime`, and extends `completed` by exactly one element.  (The input
session value itself is immutable in this embedding, as in the source,
where a fresh object is built by spread.) -/
theorem c10_frame (s : ReviewSessionState) (q : ℤ) (t now : ℚ) (st : SRSSettings)
    (h : s.currentIndex < s.items.length) :
    ∃ res, submitReviewAnswer s q t now st = .ok res ∧
      res.session.sessionId = s.sessionId ∧
      res.session.items = s.items ∧
      res.session.startTime = s.startTime ∧
      ∃ x, res.session.completed = s.completed ++ [x] := by
  simp only [submitReviewAnswer, List.getElem?_eq_getElem h]
  exact ⟨_, rfl, rfl, rfl, rfl, _, rfl⟩

/-- Witness for C10: the one-item fixture session. -/
theorem c10_witness :
    ∃ res, submitReviewAnswer session1 2 500 0 DEFAULT_SRS_SETTINGS = .ok res ∧
      res.session.sessionId = session1.sessionId ∧
      res.session.items = session1.items ∧
      res.session.startTime = session1.startTime ∧
      ∃ x, res.session.completed = session1.completed ++ [x] :=
  c10_frame session1 2 500 0 DEFAULT_SRS_SETTINGS (by decide)

end Murmura
